import Mathlib

/-!
Verification of `qccodec/parsers/orca.py`.

Shallow embedding: console text is `List Char`; the Python float result of
`parse_energy` is modelled as an exact rational (the regex only produces
plain decimal literals, so the decimal value is what `float` receives);
the generator `iter_files` is modelled as the full trace it produces when
driven to completion: the list of yielded artifacts plus the terminal
outcome (normal exhaustion or a raised `ParserError`).
-/

namespace Orca

/-- Orca filetypes (`class OrcaFileType(str, Enum)` in the source). -/
inductive OrcaFileType
  | STDOUT
  | DIRECTORY
deriving DecidableEq, Repr

/-- Model of a filesystem path (`pathlib.Path`). -/
def DirPath := String
deriving DecidableEq, Repr

/-- Payload of a yielded artifact: `Union[str, bytes, Path]` in the source;
only the `str` and `Path` alternatives are produced by the Orca iterator. -/
inductive Payload
  | str (s : List Char)
  | path (p : DirPath)
deriving DecidableEq, Repr

/-- The error raised by `iter_files` when the directory is missing or not a
directory (`ParserError(f"Directory ... does not exist or is not a directory.")`). -/
inductive ParserError
  | directoryNotFound (d : DirPath)
deriving DecidableEq, Repr

/-- The filesystem state `iter_files` can observe: whether a path exists,
whether it is a directory, and (for content-independence statements) the
files it contains.  The Orca iterator never reads `files`. -/
structure FS where
  exists_ : DirPath → Bool
  isDir : DirPath → Bool
  files : DirPath → List (List Char)

/-- The complete trace of one run of the generator `iter_files`: all
artifacts yielded, in order, and the error terminating the iteration
(`none` means the generator was exhausted normally). -/
structure IterResult where
  yielded : List (OrcaFileType × Payload)
  error : Option ParserError
deriving DecidableEq, Repr

/-- Embedding of `iter_files(stdout, directory)` from `orca.py`.

The Python generator first yields `(STDOUT, stdout)` when `stdout is not
None`; then, when `directory is not None`, it checks
`not directory.exists() or not directory.is_dir()` and raises
`ParserError` in that case, otherwise yields `(DIRECTORY, directory)`.
The check is reached only after the stdout artifact has been yielded. -/
def iter_files (fs : FS) (stdout : Option (List Char)) (directory : Option DirPath) :
    IterResult :=
  let part1 : List (OrcaFileType × Payload) :=
    match stdout with
    | some s => [(OrcaFileType.STDOUT, Payload.str s)]
    | none => []
  match directory with
  | none => ⟨part1, none⟩
  | some d =>
    if fs.exists_ d && fs.isDir d then
      ⟨part1 ++ [(OrcaFileType.DIRECTORY, Payload.path d)], none⟩
    else
      ⟨part1, some (ParserError.directoryNotFound d)⟩

/-- The literal part of the regex `r"FINAL ENERGY: (-?\d+(?:\.\d+)?)"`. -/
def litFE : List Char := "FINAL ENERGY: ".toList

/-- Strip a literal from the front of the text: `some rest` when the
literal is a prefix, `none` otherwise. -/
def dropLit : List Char → List Char → Option (List Char)
  | [], s => some s
  | _ :: _, [] => none
  | a :: l, b :: s => if a = b then dropLit l s else none

/-- Greedy match of `\d+(?:\.\d+)?` at the front of `t`, returning the
matched characters.  Mirrors Python regex semantics: one or more digits
(maximal), then optionally a dot followed by one or more digits (maximal);
the optional fraction group is dropped if no digit follows the dot. -/
def matchUnsigned (t : List Char) : Option (List Char) :=
  let ds := t.takeWhile Char.isDigit
  let rest := t.dropWhile Char.isDigit
  if ds.isEmpty then none
  else
    match rest with
    | '.' :: r =>
      let fs := r.takeWhile Char.isDigit
      if fs.isEmpty then some ds
      else some (ds ++ '.' :: fs)
    | _ => some ds

/-- Greedy match of `-?\d+(?:\.\d+)?` at the front of `t` (group 1 of the
energy regex).  A leading `-` not followed by a digit fails: regex
backtracking cannot help, since `\d+` then has to match at the `-`. -/
def matchNumber (t : List Char) : Option (List Char) :=
  match t with
  | '-' :: r => (matchUnsigned r).map (fun g => '-' :: g)
  | r => matchUnsigned r

/-- Match of the full energy regex anchored at the front of `s`, returning
group 1: the literal `FINAL ENERGY: ` followed by the number. -/
def matchEnergyAt (s : List Char) : Option (List Char) :=
  match dropLit litFE s with
  | none => none
  | some rest => matchNumber rest

/-- Modelled from the spec: `re_search` in `qccodec/parsers/utils.py` (not
in the visible sources) is the exception-driven find-or-fail text search:
it runs `re.search`, which returns the match at the leftmost position
where the pattern matches, and raises `MatchNotFoundError` when there is
none.  `none` models the raised `MatchNotFoundError`; `some g` models a
match object whose `group(1)` is `g`.  Specialised to the energy regex. -/
def re_search_energy : List Char → Option (List Char)
  | [] => matchEnergyAt []
  | s@(_ :: t) =>
    match matchEnergyAt s with
    | some g => some g
    | none => re_search_energy t

/-- Numeric value of a digit string, `foldl` style. -/
def digitsToNat (ds : List Char) : Nat :=
  ds.foldl (fun n c => 10 * n + (c.toNat - 48)) 0

/-- Value of an unsigned decimal literal `\d+(\.\d+)?` as an exact rational:
for integer part `i` and fraction digits `fs`, the value
`(i * 10 ^ |fs| + value fs) / 10 ^ |fs|`. -/
def unsignedToRat (t : List Char) : ℚ :=
  let ds := t.takeWhile Char.isDigit
  match t.dropWhile Char.isDigit with
  | '.' :: fs =>
    mkRat (digitsToNat ds * 10 ^ fs.length + digitsToNat fs) (10 ^ fs.length)
  | _ => (digitsToNat ds : ℚ)

/-- Value of the matched group as Python `float(...)` computes it,
modelled exactly: the group is always a plain decimal literal
`-?\d+(\.\d+)?`, whose value is a rational. -/
def strToRat (t : List Char) : ℚ :=
  match t with
  | '-' :: r => -(unsignedToRat r)
  | r => unsignedToRat r

/-- Embedding of `parse_energy(contents)` from `orca.py`:
`float(re_search(regex, contents).group(1))` with
`regex = r"FINAL ENERGY: (-?\d+(?:\.\d+)?)"`.  `none` models the
propagated `MatchNotFoundError`. -/
def parse_energy (contents : List Char) : Option ℚ :=
  (re_search_energy contents).map strToRat

/-! ### Helper lemmas about the regex search -/

theorem dropLit_append (l r : List Char) : dropLit l (l ++ r) = some r := by
  induction l with
  | nil => rfl
  | cons a t ih => simp [dropLit, ih]

theorem matchEnergyAt_nil : matchEnergyAt [] = none := by decide

/-- `re.search` semantics: if no match starts before position `k` and the
match at position `k` yields group `g`, the search returns `g`. -/
theorem re_search_first (s : List Char) (k : Nat) (g : List Char)
    (h1 : ∀ p, p < k → matchEnergyAt (s.drop p) = none)
    (h2 : matchEnergyAt (s.drop k) = some g) :
    re_search_energy s = some g := by
  induction s generalizing k with
  | nil =>
    rw [List.drop_nil] at h2
    rw [matchEnergyAt_nil] at h2
    exact absurd h2 (by simp)
  | cons c t ih =>
    cases k with
    | zero =>
      rw [List.drop_zero] at h2
      rw [re_search_energy, h2]
    | succ k' =>
      have h0 := h1 0 (Nat.succ_pos _)
      rw [List.drop_zero] at h0
      rw [re_search_energy, h0]
      exact ih k' (fun p hp => by simpa using h1 (p + 1) (by omega))
        (by simpa using h2)

/-- `re.search` semantics: if the pattern matches at no position, the
search fails. -/
theorem re_search_none (s : List Char)
    (h : ∀ p, p < s.length → matchEnergyAt (s.drop p) = none) :
    re_search_energy s = none := by
  induction s with
  | nil => exact matchEnergyAt_nil
  | cons c t ih =>
    have h0 := h 0 (by simp)
    rw [List.drop_zero] at h0
    rw [re_search_energy, h0]
    exact ih (fun p hp => by simpa using h (p + 1) (by simpa using hp))

/-- At an occurrence of `FINAL ENERGY: -7.64e+01` the regex matches with
group `-7.64`, whatever follows: the optional-fraction decimal literal
stops at the exponent marker `e`. -/
theorem matchEnergyAt_sci (r : List Char) :
    matchEnergyAt ("FINAL ENERGY: -7.64e+01".toList ++ r) = some ("-7.64".toList) := by
  have h : "FINAL ENERGY: -7.64e+01".toList ++ r
      = litFE ++ ("-7.64e+01".toList ++ r) := by simp [litFE]
  rw [h, matchEnergyAt, dropLit_append]
  show matchNumber ('-' :: '7' :: '.' :: '6' :: '4' :: 'e' :: '+' :: '0' :: '1' :: r)
      = some ("-7.64".toList)
  simp [matchNumber, matchUnsigned, List.takeWhile_cons, List.dropWhile_cons]

/-! ### Claim C1 -/

/-- C1 counterexample: the text `FINAL ENERGY: -1.05 FINAL ENERGY: -2.0`
contains the substring `FINAL ENERGY: -1.0` (its first 18 characters) and
`FINAL ENERGY: -2.0` at a later position (from position 20), yet
`parse_energy` returns `-1.05`, not `-1.0`: the greedy `\d+` of the regex
extends the fraction past the quoted substring.  The claim as stated, for
every text merely containing the two substrings, is false. -/
theorem c1_counterexample :
    ("FINAL ENERGY: -1.05 FINAL ENERGY: -2.0".toList.take 18
      = "FINAL ENERGY: -1.0".toList)
    ∧ (("FINAL ENERGY: -1.05 FINAL ENERGY: -2.0".toList.drop 20).take 18
      = "FINAL ENERGY: -2.0".toList)
    ∧ parse_energy "FINAL ENERGY: -1.05 FINAL ENERGY: -2.0".toList
      = some (mkRat (-105) 100)
    ∧ parse_energy "FINAL ENERGY: -1.05 FINAL ENERGY: -2.0".toList
      ≠ some (-1 : ℚ) := by
  refine ⟨by decide, by decide, by decide, by decide⟩

/-- C1 (amended): for every console text whose leftmost match of the
energy pattern captures exactly `-1.0` (no match starts at an earlier
position), and which contains `FINAL ENERGY: -2.0` at a later position,
`parse_energy` returns `-1.0`: the value of the first matched occurrence,
never the last. -/
theorem c1_first_occurrence (s : List Char) (k m : Nat)
    (h1 : ∀ p, p < k → matchEnergyAt (s.drop p) = none)
    (h2 : matchEnergyAt (s.drop k) = some ("-1.0".toList))
    (_hkm : k < m)
    (_h3 : (s.drop m).take 18 = "FINAL ENERGY: -2.0".toList) :
    parse_energy s = some (-1 : ℚ) := by
  rw [parse_energy, re_search_first s k _ h1 h2, Option.map_some']
  have hv : strToRat ("-1.0".toList) = (-1 : ℚ) := by decide
  rw [hv]

/-- C1 witness: a concrete run of the amended claim. -/
theorem c1_first_occurrence_witness :
    parse_energy "x FINAL ENERGY: -1.0 FINAL ENERGY: -2.0".toList = some (-1 : ℚ) :=
  c1_first_occurrence _ 2 21 (by decide) (by decide) (by decide) (by decide)

/-! ### Claim C2 -/

/-- C2 counterexample: the text `FINAL ENERGY: 1 FINAL ENERGY: -76.404459`
contains the substring `FINAL ENERGY: -76.404459` (from position 16) with
arbitrary surrounding text, yet `parse_energy` returns `1`, the value of
the earlier match, not `-76.404459`.  The claim as stated, for every text
merely containing the substring, is false. -/
theorem c2_counterexample :
    (("FINAL ENERGY: 1 FINAL ENERGY: -76.404459".toList.drop 16).take 24
      = "FINAL ENERGY: -76.404459".toList)
    ∧ parse_energy "FINAL ENERGY: 1 FINAL ENERGY: -76.404459".toList = some (1 : ℚ)
    ∧ parse_energy "FINAL ENERGY: 1 FINAL ENERGY: -76.404459".toList
      ≠ some (-76.404459 : ℚ) := by
  refine ⟨by decide, by decide, ?_⟩
  have h : parse_energy "FINAL ENERGY: 1 FINAL ENERGY: -76.404459".toList
      = some (1 : ℚ) := by decide
  rw [h]
  simp only [ne_eq, Option.some.injEq]
  norm_num

/-- C2 (amended): for every console text containing
`FINAL ENERGY: -76.404459`, with arbitrary surrounding text, provided the
occurrence is the leftmost match of the energy pattern and its captured
group is exactly `-76.404459`, `parse_energy` returns the value
`-76.404459`. -/
theorem c2_energy_anywhere (s : List Char) (k : Nat)
    (h1 : ∀ p, p < k → matchEnergyAt (s.drop p) = none)
    (h2 : matchEnergyAt (s.drop k) = some ("-76.404459".toList)) :
    parse_energy s = some (-76.404459 : ℚ) := by
  rw [parse_energy, re_search_first s k _ h1 h2, Option.map_some']
  have hv : strToRat ("-76.404459".toList) = mkRat (-76404459) 1000000 := by decide
  rw [hv]
  simp only [Option.some.injEq]
  norm_num [Rat.mkRat_eq_div]

/-- C2 witness: a concrete run of the amended claim. -/
theorem c2_energy_anywhere_witness :
    parse_energy "header FINAL ENERGY: -76.404459 footer".toList
      = some (-76.404459 : ℚ) :=
  c2_energy_anywhere _ 7 (by decide) (by decide)

/-! ### Claim C3 -/

/-- C3 counterexample: with console text supplied and a directory that
does not exist, the generator yields the console artifact first and only
then raises `ParserError`: the error is not raised before any artifact is
yielded. -/
theorem c3_counterexample :
    (iter_files ⟨fun _ => false, fun _ => false, fun _ => []⟩
        (some ("energy run".toList)) (some "missing")).yielded
      = [(OrcaFileType.STDOUT, Payload.str ("energy run".toList))]
    ∧ (iter_files ⟨fun _ => false, fun _ => false, fun _ => []⟩
        (some ("energy run".toList)) (some "missing")).error
      = some (ParserError.directoryNotFound "missing") :=
  ⟨rfl, rfl⟩

/-- C3 (amended): if the directory does not exist or is not a directory,
`iter_files` raises `ParserError` and yields no directory artifact (every
artifact yielded before the error is the console artifact); when console
text is not supplied the error is raised before any artifact is yielded. -/
theorem c3_input_error (fs : FS) (o : Option (List Char)) (d : DirPath)
    (h : fs.exists_ d = false ∨ fs.isDir d = false) :
    (iter_files fs o (some d)).error = some (ParserError.directoryNotFound d)
    ∧ (∀ x ∈ (iter_files fs o (some d)).yielded, x.1 = OrcaFileType.STDOUT)
    ∧ (o = none → (iter_files fs o (some d)).yielded = []) := by
  have hc : (fs.exists_ d && fs.isDir d) = false := by
    rcases h with h | h <;> simp [h]
  cases o <;> simp [iter_files, hc]

/-- C3 witness: a concrete run of the amended claim, on a filesystem where
the path `scr` does not exist. -/
theorem c3_input_error_witness :
    ((iter_files ⟨fun _ => false, fun _ => true, fun _ => []⟩
        (some ("out".toList)) (some "scr")).error
      = some (ParserError.directoryNotFound "scr"))
    ∧ (∀ x ∈ (iter_files ⟨fun _ => false, fun _ => true, fun _ => []⟩
        (some ("out".toList)) (some "scr")).yielded, x.1 = OrcaFileType.STDOUT)
    ∧ ((some ("out".toList) : Option (List Char)) = none →
        (iter_files ⟨fun _ => false, fun _ => true, fun _ => []⟩
          (some ("out".toList)) (some "scr")).yielded = []) :=
  c3_input_error _ _ _ (Or.inl rfl)

/-! ### Claim C4 -/

/-- C4: for an existing directory, the directory portion of the yielded
sequence is exactly the one artifact of declared kind `DIRECTORY` (whose
payload is the directory path), no error is raised, and the outcome is
independent of the files inside the directory: unrecognized files are
never yielded and never cause an error. -/
theorem c4_directory_enumeration (e i : DirPath → Bool)
    (f : DirPath → List (List Char)) (o : Option (List Char)) (d : DirPath)
    (h1 : e d = true) (h2 : i d = true) :
    ((iter_files ⟨e, i, f⟩ o (some d)).yielded.filter
        (fun x => x.1 == OrcaFileType.DIRECTORY)
      = [(OrcaFileType.DIRECTORY, Payload.path d)])
    ∧ (iter_files ⟨e, i, f⟩ o (some d)).error = none
    ∧ (∀ f2 : DirPath → List (List Char),
        iter_files ⟨e, i, f2⟩ o (some d) = iter_files ⟨e, i, f⟩ o (some d)) := by
  refine ⟨?_, ?_, fun f2 => rfl⟩ <;> cases o <;> simp [iter_files, h1, h2]

/-- C4 witness: a concrete run on a directory containing an unrecognized
file `junk.tmp`, which is ignored. -/
theorem c4_directory_enumeration_witness :
    ((iter_files ⟨fun _ => true, fun _ => true, fun _ => ["junk.tmp".toList]⟩
        none (some "scr")).yielded.filter (fun x => x.1 == OrcaFileType.DIRECTORY)
      = [(OrcaFileType.DIRECTORY, Payload.path "scr")])
    ∧ (iter_files ⟨fun _ => true, fun _ => true, fun _ => ["junk.tmp".toList]⟩
        none (some "scr")).error = none
    ∧ (∀ f2 : DirPath → List (List Char),
        iter_files ⟨fun _ => true, fun _ => true, f2⟩ none (some "scr")
          = iter_files ⟨fun _ => true, fun _ => true, fun _ => ["junk.tmp".toList]⟩
            none (some "scr")) :=
  c4_directory_enumeration _ _ _ none "scr" rfl rfl

/-! ### Claim C5 -/

/-- C5: for every console text in which the energy pattern matches at no
position, `parse_energy` signals the pattern-absent failure
(`MatchNotFoundError`, modelled as `none`); it never returns a substitute
value. -/
theorem c5_pattern_absent (s : List Char)
    (h : ∀ p, p < s.length → matchEnergyAt (s.drop p) = none) :
    parse_energy s = none := by
  rw [parse_energy, re_search_none s h, Option.map_none']

/-- C5 witness: a concrete text where the pattern never matches (the
literal appears but is not followed by a number). -/
theorem c5_pattern_absent_witness :
    parse_energy "TOTAL SCF ENERGY here, FINAL ENERGY: pending".toList = none :=
  c5_pattern_absent _ (by decide)

/-! ### Claims C6 - C9 -/

/-- C6: whenever console text is supplied, the first artifact yielded by
`iter_files` is that console text tagged `STDOUT`, whether or not a
directory is also supplied and whatever its state. -/
theorem c6_stdout_first (fs : FS) (s : List Char) (d : Option DirPath) :
    (iter_files fs (some s) d).yielded.head?
      = some (OrcaFileType.STDOUT, Payload.str s) := by
  cases d with
  | none => rfl
  | some dd =>
    by_cases h : (fs.exists_ dd && fs.isDir dd) = true <;> simp [iter_files, h]

/-- C7: with neither console text nor directory, `iter_files` yields the
empty sequence and raises no error. -/
theorem c7_no_inputs (fs : FS) : iter_files fs none none = ⟨[], none⟩ := rfl

/-- C8: parsing is deterministic: equal console texts give equal
`parse_energy` results, and equal filesystem states and arguments give
equal `iter_files` traces.  Both functions are pure in the embedding, as
the source routines read no mutable state. -/
theorem c8_deterministic (s1 s2 : List Char) (fs1 fs2 : FS)
    (o1 o2 : Option (List Char)) (d1 d2 : Option DirPath)
    (hs : s1 = s2) (hfs : fs1 = fs2) (ho : o1 = o2) (hd : d1 = d2) :
    parse_energy s1 = parse_energy s2
    ∧ iter_files fs1 o1 d1 = iter_files fs2 o2 d2 := by
  subst hs hfs ho hd
  exact ⟨rfl, rfl⟩

/-- C8 witness: a concrete pair of repeated invocations. -/
theorem c8_deterministic_witness :
    parse_energy "FINAL ENERGY: -1.0".toList = parse_energy "FINAL ENERGY: -1.0".toList
    ∧ iter_files ⟨fun _ => true, fun _ => true, fun _ => []⟩ none none
      = iter_files ⟨fun _ => true, fun _ => true, fun _ => []⟩ none none :=
  c8_deterministic _ _ _ _ _ _ _ _ rfl rfl rfl rfl

/-- C9: every `iter_files` trace yields at most two artifacts: at most one
`STDOUT` artifact and at most one `DIRECTORY` artifact, whose payload is
the supplied directory path itself; in particular iteration always
terminates. -/
theorem c9_bounded (fs : FS) (o : Option (List Char)) (d : Option DirPath) :
    (iter_files fs o d).yielded.length ≤ 2
    ∧ (iter_files fs o d).yielded.countP (fun x => x.1 == OrcaFileType.STDOUT) ≤ 1
    ∧ (iter_files fs o d).yielded.countP (fun x => x.1 == OrcaFileType.DIRECTORY) ≤ 1
    ∧ ∀ x ∈ (iter_files fs o d).yielded, x.1 = OrcaFileType.DIRECTORY →
        ∃ dd, d = some dd ∧ x.2 = Payload.path dd := by
  cases o with
  | none =>
    cases d with
    | none => simp [iter_files]
    | some dd =>
      by_cases h : (fs.exists_ dd && fs.isDir dd) = true <;>
        simp [iter_files, h, List.countP_cons, List.countP_nil]
  | some s =>
    cases d with
    | none => simp [iter_files]
    | some dd =>
      by_cases h : (fs.exists_ dd && fs.isDir dd) = true <;>
        simp [iter_files, h, List.countP_cons, List.countP_nil]

/-! ### Claim C10 -/

/-- C10: for console text in which the energy value is written in
scientific notation, `FINAL ENERGY: -7.64e+01`, with arbitrary text
around it (none of which matches the pattern earlier), `parse_energy`
does not fail but returns only the mantissa `-7.64`: the regex
optional-fraction decimal literal stops before the exponent. -/
theorem c10_scientific_mantissa (a b : List Char)
    (h1 : ∀ p, p < a.length →
      matchEnergyAt ((a ++ ("FINAL ENERGY: -7.64e+01".toList ++ b)).drop p) = none) :
    parse_energy (a ++ ("FINAL ENERGY: -7.64e+01".toList ++ b))
      = some (-7.64 : ℚ) := by
  have h2 : matchEnergyAt ((a ++ ("FINAL ENERGY: -7.64e+01".toList ++ b)).drop a.length)
      = some ("-7.64".toList) := by
    rw [List.drop_left]
    exact matchEnergyAt_sci b
  rw [parse_energy, re_search_first _ a.length _ h1 h2, Option.map_some']
  have hv : strToRat ("-7.64".toList) = mkRat (-764) 100 := by decide
  rw [hv]
  simp only [Option.some.injEq]
  norm_num [Rat.mkRat_eq_div]

/-- C10 witness: a concrete scientific-notation text. -/
theorem c10_scientific_mantissa_witness :
    parse_energy ("Iter 1: ".toList ++ ("FINAL ENERGY: -7.64e+01".toList ++ " Done".toList))
      = some (-7.64 : ℚ) :=
  c10_scientific_mantissa ("Iter 1: ".toList) (" Done".toList) (by decide)

end Orca
